import Mathlib

/-!
Shallow embedding of the fsworkflow repository (Go):
`src/workflow/processors/processor_factory.go` (the freeswitch processor
factory and `InboundWorkflow.Handler`) and
`src/workflow/activities/bridge_activity.go` (`BridgeActivity.Handler`).

Activities other than Bridge (SessionInit, Originate, Hangup) and the
`shared` / `freeswitch` helper packages are not part of the sources; the
workflow treats activity executions as an environment (`Env`), and the
shared constants and error constructors are modelled from the spec where
noted.
-/

namespace Fsflow

/-- A Go `interface{}` value stored in a metadata map: either a string or
some non-string value.  The distinction matters because the workflow code
applies unchecked `.(string)` type assertions to metadata values. -/
inductive MetaValue where
  | str (s : String)
  | other
deriving DecidableEq, Repr

/-- `shared.Metadata`: a `map[string]interface{}`; modelled as an
association list with unique keys irrelevant to lookup semantics. -/
abbrev Metadata := List (String × MetaValue)

/-- Go map lookup `m[k]`: `none` models the `nil` interface returned for an
absent key. -/
def mget (m : Metadata) (k : String) : Option MetaValue :=
  match m.find? (fun kv => kv.1 == k) with
  | some kv => some kv.2
  | none => none

/-- `shared.WorkflowOutput`: the envelope `{Success, Metadata}` returned by
every activity and the workflow. -/
structure WorkflowOutput where
  success : Bool
  metadata : Metadata
deriving DecidableEq, Repr

/-- Modelled from the spec: the error taxonomy of the `shared` package
(section 7): InputError / MissingFieldError(field) / TransportError.
`shared.NewWorkflowInputError` and `shared.RequireField` are not under
src; the spec names their classes. -/
inductive WError where
  | inputError (msg : String)
  | missingField (field : String)
  | transport (msg : String)
deriving DecidableEq, Repr

/-- Modelled from the spec: `shared.NewWorkflowInputError` builds a
non-retryable input error carrying a message. -/
def NewWorkflowInputError (msg : String) : WError := .inputError msg

/-- Modelled from the spec: `shared.RequireField` builds the
MissingFieldError(fieldName) of the spec's taxonomy. -/
def RequireField (field : String) : WError := .missingField field

/-- Modelled from the spec: the spec's `UnsupportedActionError` taxonomy
entry; in the code the factory's unknown-action branch constructs it as
`shared.NewWorkflowInputError("unsupported action")`. -/
def UnsupportedActionError : WError := NewWorkflowInputError "unsupported action"

/-- Modelled from the spec: `shared.Action` metadata key (spec section 3
lists the recognized metadata keys). -/
def ActionKey : String := "action"

/-- Modelled from the spec: `shared.Destination` metadata key. -/
def DestinationKey : String := "destination"

/-- Modelled from the spec: `shared.Gateway` metadata key. -/
def GatewayKey : String := "gateway"

/-- Modelled from the spec: `shared.Profile` metadata key. -/
def ProfileKey : String := "profile"

/-- Modelled from the spec: `shared.Uid` metadata key. -/
def UidKey : String := "uid"

/-- Modelled from the spec: `shared.HangupCause` metadata key. -/
def HangupCauseKey : String := "hangupCause"

/-- Modelled from the spec: `shared.Message` metadata key. -/
def MessageKey : String := "message"

/-- Modelled from the spec: action enum literal `"bridge"`
(`shared.Bridge` / `shared.ActionBridge`, spec section 6). -/
def ActionBridge : String := "bridge"

/-- Modelled from the spec: action enum literal `"hangup"`
(`shared.Hangup` / `shared.ActionHangup`). -/
def ActionHangup : String := "hangup"

/-- Modelled from the spec: action enum literal `"originate"`
(`shared.Originate` / `shared.ActionOriginate`). -/
def ActionOriginate : String := "originate"

/-! ### Processor factory (`FreeswitchProcessorFactoryImpl`) -/

/-- The three processor kinds `NewOriginateProcessor` /
`NewBridgeProcessor` / `NewHangupProcessor` can produce. -/
inductive Processor where
  | originate
  | bridge
  | hangup
deriving DecidableEq, Repr

/-- `FreeswitchProcessorFactoryImpl.CreateActivityProcessor`: dispatch on
the action key string; unknown keys yield the unsupported-action error and
no processor. -/
def CreateActivityProcessor (s : String) : Except WError Processor :=
  if s = ActionOriginate then .ok .originate
  else if s = ActionBridge then .ok .bridge
  else if s = ActionHangup then .ok .hangup
  else .error (NewWorkflowInputError "unsupported action")

/-! ### Bridge activity (`BridgeActivity.Handler`) -/

/-- `freeswitch.Command`: `{AppName, AppArgs}` sent verbatim to the
switch. -/
structure Command where
  appName : String
  appArgs : String
deriving DecidableEq, Repr

/-- Result of one `SwitchClient.Api` call: a response string or a
transport-level error. -/
inductive ApiResult where
  | ok (res : String)
  | err (e : WError)
deriving DecidableEq, Repr

/-- `activities.BridgeActivityInput`. -/
structure BridgeActivityInput where
  originator : String
  originatee : String
deriving DecidableEq, Repr

/-- `workflows.InboundWorkflowInput` (timeout is an opaque pass-through
duration). -/
structure InboundWorkflowInput where
  ani : String
  dnis : String
  domain : String
  sessionId : String
  initName : String
  timeout : Int
deriving DecidableEq, Repr

/-- Modelled from the spec: a generic `interface{}` payload handed to a
handler, as seen by `shared.Convert` (not under src): conversion to a
typed input succeeds exactly when the payload has that shape. -/
inductive Payload where
  | wfInput (i : InboundWorkflowInput)
  | bridgeInput (i : BridgeActivityInput)
  | bad
deriving DecidableEq, Repr

/-- Modelled from the spec: `shared.Convert(i, &InboundWorkflowInput{})`
succeeds exactly on payloads of the workflow-input shape. -/
def convertWf : Payload → Option InboundWorkflowInput
  | .wfInput i => some i
  | _ => none

/-- Modelled from the spec: `shared.Convert(i, &BridgeActivityInput{})`
succeeds exactly on payloads of the bridge-input shape. -/
def convertBridge : Payload → Option BridgeActivityInput
  | .bridgeInput i => some i
  | _ => none

/-- The output value `shared.WorkflowOutput{Success: false, Metadata:
make(shared.Metadata)}` both handlers start from. -/
def initOutput : WorkflowOutput := ⟨false, []⟩

/-- The single command `BridgeActivity.Handler` builds:
`{AppName: "uuid_bridge", AppArgs: fmt.Sprintf("%v %v", originator,
originatee)}`. -/
def bridgeCmd (i : BridgeActivityInput) : Command :=
  ⟨"uuid_bridge", i.originator ++ " " ++ i.originatee⟩

/-- `BridgeActivity.Handler`: returns the list of commands issued to
`SwitchClient.Api` together with the `(WorkflowOutput, error)` pair. -/
def bridgeHandler (api : Command → ApiResult) (pl : Payload) :
    List Command × WorkflowOutput × Option WError :=
  match convertBridge pl with
  | none => ([], initOutput, some (NewWorkflowInputError "Cannot cast input to BridgeActivityInput"))
  | some input =>
    match api (bridgeCmd input) with
    | .err e => ([bridgeCmd input], initOutput, some e)
    | .ok res => ([bridgeCmd input], ⟨true, [(MessageKey, .str res)]⟩, none)

/-! ### Inbound workflow (`InboundWorkflow.Handler`) -/

/-- `activities.SessionInitActivityInput` as built by the workflow. -/
structure SessionInitActivityInput where
  ani : String
  dnis : String
  domain : String
  initName : String
  timeout : Int
deriving DecidableEq, Repr

/-- `activities.HangupActivityInput` as built by the workflow (`""` is the
Go zero value of the HangupCause field). -/
structure HangupActivityInput where
  sessionId : String
  hangupCause : String
deriving DecidableEq, Repr

/-- `freeswitch` call direction; the workflow always passes
`freeswitch.Inbound`. -/
inductive Direction where
  | inbound
  | outbound
deriving DecidableEq, Repr

/-- `activities.OriginateActivityInput` as built by the workflow (`""` is
the Go zero value of the Profile field). -/
structure OriginateActivityInput where
  timeout : Int
  destination : String
  gateway : String
  allowReject : Bool
  autoAnswer : Bool
  direction : Direction
  profile : String
deriving DecidableEq, Repr

/-- One activity execution observed by the workflow via
`workflow.ExecuteActivity(...).Get`. -/
inductive Invocation where
  | sessionInit (i : SessionInitActivityInput)
  | hangup (i : HangupActivityInput)
  | originate (i : OriginateActivityInput)
  | bridge (i : BridgeActivityInput)
deriving DecidableEq, Repr

/-- Result of awaiting one activity: `Get` either fills the output
variable (`ok`) or returns an error leaving the variable unchanged
(`err`). -/
inductive ActivityResult where
  | ok (out : WorkflowOutput)
  | err (e : WError)
deriving DecidableEq, Repr

/-- Environment the workflow runs against: the outcome of each possible
activity execution.  SessionInit's outcome does not depend on workflow
data the environment cannot already see, so it is a single result. -/
structure Env where
  sessionInit : ActivityResult
  hangup : HangupActivityInput → ActivityResult
  originate : OriginateActivityInput → ActivityResult
  bridge : BridgeActivityInput → ActivityResult

/-- Outcome of one workflow run: either a `(WorkflowOutput, error)` return
or a runtime panic from a failed `.(string)` type assertion. -/
inductive WfResult where
  | ret (out : WorkflowOutput) (err : Option WError)
  | panic
deriving DecidableEq, Repr

/-- The `SessionInitActivityInput` literal of lines 82-88 of the workflow
source. -/
def siInput (i : InboundWorkflowInput) : SessionInitActivityInput :=
  ⟨i.ani, i.dnis, i.domain, i.initName, i.timeout⟩

/-- The `OriginateActivityInput` literal of lines 121-131: fixed
`AllowReject=true`, `AutoAnswer=false`, `Direction=Inbound`, optional
profile. -/
def oInput (t : Int) (d g p : String) : OriginateActivityInput :=
  ⟨t, d, g, true, false, .inbound, p⟩

/-- Lines 145-155: execute BridgeActivity; on error return the previous
output with the error, otherwise return Bridge's output (the
`!output.Success` early return and the fall-through return coincide). -/
def runBridge (env : Env) (prev : WorkflowOutput) (bi : BridgeActivityInput)
    (tr : List Invocation) : List Invocation × WfResult :=
  let tr := tr ++ [.bridge bi]
  match env.bridge bi with
  | .err e => (tr, .ret prev (some e))
  | .ok bout => (tr, .ret bout none)

/-- Lines 133-155: execute OriginateActivity; error or `success=false` is
terminal; then the `uid` presence check, the `.(string)` assertion on it,
and the Bridge step. -/
def runOriginate (env : Env) (i : InboundWorkflowInput) (prev : WorkflowOutput)
    (oi : OriginateActivityInput) (tr : List Invocation) :
    List Invocation × WfResult :=
  let tr := tr ++ [.originate oi]
  match env.originate oi with
  | .err e => (tr, .ret prev (some e))
  | .ok oout =>
    if !oout.success then (tr, .ret oout none)
    else
      match mget oout.metadata UidKey with
      | none => (tr, .ret oout (some (RequireField "uid")))
      | some .other => (tr, .panic)
      | some (.str x) => runBridge env oout ⟨i.sessionId, x⟩ tr

/-- Lines 110-157, the `originate` branch: `destination` and `gateway`
nil-checks, then the `.(string)` assertions in the input literal, the
optional `profile` assertion, and the Originate step. -/
def originateBranch (env : Env) (i : InboundWorkflowInput)
    (out : WorkflowOutput) (tr : List Invocation) :
    List Invocation × WfResult :=
  match mget out.metadata DestinationKey with
  | none => (tr, .ret out (some (RequireField "destination")))
  | some dv =>
    match mget out.metadata GatewayKey with
    | none => (tr, .ret out (some (RequireField "gateway")))
    | some gv =>
      match dv with
      | .other => (tr, .panic)
      | .str d =>
        match gv with
        | .other => (tr, .panic)
        | .str g =>
          match mget out.metadata ProfileKey with
          | some .other => (tr, .panic)
          | some (.str p) => runOriginate env i out (oInput i.timeout d g p) tr
          | none => runOriginate env i out (oInput i.timeout d g "") tr

/-- Lines 104-108: execute HangupActivity; only the error (not the success
flag) is checked, so Hangup's output is returned verbatim. -/
def runHangup (env : Env) (prev : WorkflowOutput) (hi : HangupActivityInput)
    (tr : List Invocation) : List Invocation × WfResult :=
  let tr := tr ++ [.hangup hi]
  match env.hangup hi with
  | .err e => (tr, .ret prev (some e))
  | .ok hout => (tr, .ret hout none)

/-- Lines 98-109, the `hangup` branch: optional `hangupCause` with a
`.(string)` assertion when present. -/
def hangupBranch (env : Env) (i : InboundWorkflowInput)
    (out : WorkflowOutput) (tr : List Invocation) :
    List Invocation × WfResult :=
  match mget out.metadata HangupCauseKey with
  | some .other => (tr, .panic)
  | some (.str c) => runHangup env out ⟨i.sessionId, c⟩ tr
  | none => runHangup env out ⟨i.sessionId, ""⟩ tr

/-- Line 95's `switch output.Metadata[shared.Action].(string)`: the
assertion panics when `action` is absent or not a string; otherwise the
four-way branch (`bridge` and the default case are no-ops). -/
def dispatch (env : Env) (i : InboundWorkflowInput) (out : WorkflowOutput)
    (tr : List Invocation) : List Invocation × WfResult :=
  match mget out.metadata ActionKey with
  | some (.str a) =>
    if a = ActionBridge then (tr, .ret out none)
    else if a = ActionHangup then hangupBranch env i out tr
    else if a = ActionOriginate then originateBranch env i out tr
    else (tr, .ret out none)
  | _ => (tr, .panic)

/-- Lines 81-93: execute SessionInitActivity; any error or
`success=false` is terminal. -/
def afterConvert (env : Env) (i : InboundWorkflowInput) :
    List Invocation × WfResult :=
  let tr := [Invocation.sessionInit (siInput i)]
  match env.sessionInit with
  | .err e => (tr, .ret initOutput (some e))
  | .ok out =>
    if !out.success then (tr, .ret out none)
    else dispatch env i out tr

/-- `InboundWorkflow.Handler`: input conversion, then the activity
sequence; the first component is the trace of activities invoked. -/
def inboundHandler (env : Env) (pl : Payload) : List Invocation × WfResult :=
  match convertWf pl with
  | none => ([], .ret initOutput (some (NewWorkflowInputError "Cannot cast input to InboundWorkflowInput")))
  | some i => afterConvert env i

/-- The environment's verdict on one invocation (which result `Get` would
observe for it). -/
def Env.resultOf (env : Env) : Invocation → ActivityResult
  | .sessionInit _ => env.sessionInit
  | .hangup i => env.hangup i
  | .originate i => env.originate i
  | .bridge i => env.bridge i

/-- An activity step failed: it returned an error or `success=false`. -/
def ActivityResult.failed : ActivityResult → Bool
  | .err _ => true
  | .ok o => !o.success

/-- A metadata value is a string (the unchecked `.(string)` assertion
succeeds on it). -/
def MetaValue.isStr : MetaValue → Bool
  | .str _ => true
  | .other => false

/-- The metadata keys the workflow reads through `.(string)` assertions. -/
def readKeys : List String :=
  [ActionKey, HangupCauseKey, DestinationKey, GatewayKey, ProfileKey, UidKey]

/-- Every value present under a read key is a string. -/
def keysOk (m : Metadata) : Prop :=
  ∀ k ∈ readKeys, ∀ v, mget m k = some v → v.isStr = true

/-- The profile string the originate branch ends up passing (lines
129-131): the Go zero value `""` when the key is absent, the string when
present as a string, and `none` marking the panicking non-string case. -/
def profileOf (m : Metadata) : Option String :=
  match mget m ProfileKey with
  | none => some ""
  | some (.str s) => some s
  | some .other => none

/-- Environment builder for concrete runs: each activity kind gets a fixed
result. -/
def mkEnv (si orig hup br : ActivityResult) : Env :=
  ⟨si, fun _ => hup, fun _ => orig, fun _ => br⟩

/-- A concrete workflow input used to evaluate the embedding. -/
def wIn : InboundWorkflowInput :=
  ⟨"1001", "2002", "example.com", "sess-1", "dialplan", 30⟩

/-- A concrete SessionInit output selecting the originate branch with
string destination and gateway. -/
def outC1 : WorkflowOutput :=
  ⟨true, [(ActionKey, .str ActionOriginate),
    (DestinationKey, .str "16505550100"), (GatewayKey, .str "gw1")]⟩

/-- A concrete successful Originate output carrying a uid. -/
def ooutC1 : WorkflowOutput := ⟨true, [(UidKey, .str "leg-B")]⟩

/-- A concrete successful Bridge output. -/
def boutC1 : WorkflowOutput := ⟨true, [(MessageKey, .str "+OK")]⟩

/-- Environment for a full originate-then-bridge run. -/
def envC1 : Env := mkEnv (.ok outC1) (.ok ooutC1) (.ok initOutput) (.ok boutC1)

/-- A SessionInit output selecting originate with no destination. -/
def outC2 : WorkflowOutput := ⟨true, [(ActionKey, .str ActionOriginate)]⟩

/-- Environment whose SessionInit output lacks the destination field. -/
def envC2 : Env := mkEnv (.ok outC2) (.ok initOutput) (.ok initOutput) (.ok initOutput)

/-- A SessionInit output selecting hangup with a cause. -/
def outC4 : WorkflowOutput :=
  ⟨true, [(ActionKey, .str ActionHangup),
    (HangupCauseKey, .str "NORMAL_CLEARING")]⟩

/-- A concrete Hangup output. -/
def houtC4 : WorkflowOutput := ⟨true, [(MessageKey, .str "+OK hangup")]⟩

/-- Environment for the hangup branch. -/
def envC4 : Env := mkEnv (.ok outC4) (.ok initOutput) (.ok houtC4) (.ok initOutput)

/-- A SessionInit output with an unrecognized string action. -/
def outC9 : WorkflowOutput := ⟨true, [(ActionKey, .str "transfer")]⟩

/-- Environment for the unrecognized-action no-op branch. -/
def envC9 : Env := mkEnv (.ok outC9) (.ok initOutput) (.ok initOutput) (.ok initOutput)

/-- A successful SessionInit output whose metadata lacks the action key. -/
def outC10 : WorkflowOutput := ⟨true, []⟩

/-- Environment whose SessionInit output has no action key at all. -/
def envC10 : Env := mkEnv (.ok outC10) (.ok initOutput) (.ok initOutput) (.ok initOutput)

end Fsflow

namespace Fsflow

/-- C3: for every pair of originator string A and originatee string B, a
BridgeActivity invocation with input `{originator: A, originatee: B}`
issues exactly one SwitchClient.Api call, whose command is
`{appName: "uuid_bridge", appArgs: A ++ " " ++ B}`. -/
theorem c3_bridge_issues_single_uuid_bridge_command
    (api : Command → ApiResult) (a b : String) :
    (bridgeHandler api (.bridgeInput ⟨a, b⟩)).1 =
      [⟨"uuid_bridge", a ++ " " ++ b⟩] := by
  have hc : convertBridge (.bridgeInput ⟨a, b⟩) = some ⟨a, b⟩ := rfl
  simp only [bridgeHandler, hc]
  cases api (bridgeCmd ⟨a, b⟩) <;> rfl

/-- C6: the processor factory returns an Originate, Bridge, or Hangup
processor exactly when the action key equals the corresponding literal,
and for every other string it returns the unsupported-action error and no
processor. -/
theorem c6_factory_dispatch (s : String) :
    (CreateActivityProcessor s = .ok .originate ↔ s = ActionOriginate) ∧
    (CreateActivityProcessor s = .ok .bridge ↔ s = ActionBridge) ∧
    (CreateActivityProcessor s = .ok .hangup ↔ s = ActionHangup) ∧
    (s ≠ ActionOriginate → s ≠ ActionBridge → s ≠ ActionHangup →
      CreateActivityProcessor s = .error UnsupportedActionError) := by
  unfold CreateActivityProcessor UnsupportedActionError NewWorkflowInputError
  split_ifs with h1 h2 h3 <;>
    simp_all [ActionOriginate, ActionBridge, ActionHangup]

/-- Witness for C6 at the spec's own examples: `create "bridge"` yields
the Bridge processor and `create "unknown"` the unsupported-action
error. -/
theorem c6_factory_dispatch_witness :
    CreateActivityProcessor "bridge" = .ok .bridge ∧
    CreateActivityProcessor "unknown" = .error UnsupportedActionError :=
  ⟨(c6_factory_dispatch "bridge").2.1.mpr rfl,
   (c6_factory_dispatch "unknown").2.2.2 (by decide) (by decide) (by decide)⟩

/-- C7: for every payload that cannot be converted to the expected typed
input, the bridge activity returns `success=false` with an InputError and
issues no SwitchClient call, and likewise the workflow for its own input
returns `success=false` with an InputError and invokes no activity. -/
theorem c7_unconvertible_input
    (api : Command → ApiResult) (env : Env) (pl pl' : Payload)
    (hb : convertBridge pl = none) (hw : convertWf pl' = none) :
    bridgeHandler api pl =
      ([], initOutput,
        some (NewWorkflowInputError "Cannot cast input to BridgeActivityInput")) ∧
    inboundHandler env pl' =
      ([], .ret initOutput
        (some (NewWorkflowInputError "Cannot cast input to InboundWorkflowInput"))) := by
  constructor
  · unfold bridgeHandler
    rw [hb]
  · unfold inboundHandler
    rw [hw]

/-- Witness for C7: a workflow-shaped payload is not convertible to the
bridge input, and the opaque payload is not convertible to the workflow
input. -/
theorem c7_unconvertible_input_witness :
    bridgeHandler (fun _ => .ok "+OK") (.wfInput wIn) =
      ([], initOutput,
        some (NewWorkflowInputError "Cannot cast input to BridgeActivityInput")) ∧
    inboundHandler (mkEnv (.ok initOutput) (.ok initOutput) (.ok initOutput) (.ok initOutput)) .bad =
      ([], .ret initOutput
        (some (NewWorkflowInputError "Cannot cast input to InboundWorkflowInput"))) :=
  c7_unconvertible_input (fun _ => .ok "+OK")
    (mkEnv (.ok initOutput) (.ok initOutput) (.ok initOutput) (.ok initOutput))
    (.wfInput wIn) .bad rfl rfl

/-- C8: a bridge-activity output is `success=true` exactly when the single
issued command was acknowledged by the switch, in which case the raw
response is recorded under the `message` key; and every output's metadata
map is the explicitly initialized (never null) map or the message
record. -/
theorem c8_success_only_after_acknowledgement
    (api : Command → ApiResult) (pl : Payload) :
    ((bridgeHandler api pl).2.1.success = true ↔
      ∃ i res, pl = .bridgeInput i ∧ api (bridgeCmd i) = .ok res ∧
        bridgeHandler api pl =
          ([bridgeCmd i], ⟨true, [(MessageKey, .str res)]⟩, none)) ∧
    ((bridgeHandler api pl).2.1.metadata = initOutput.metadata ∨
      ∃ res, (bridgeHandler api pl).2.1.metadata = [(MessageKey, .str res)]) := by
  cases pl with
  | wfInput i => simp [bridgeHandler, convertBridge, initOutput]
  | bad => simp [bridgeHandler, convertBridge, initOutput]
  | bridgeInput i =>
    have hc : convertBridge (.bridgeInput i) = some i := rfl
    cases h : api (bridgeCmd i) with
    | ok res =>
      have hb : bridgeHandler api (.bridgeInput i) =
          ([bridgeCmd i], ⟨true, [(MessageKey, .str res)]⟩, none) := by
        simp only [bridgeHandler, hc, h]
      rw [hb]
      constructor
      · constructor
        · intro _
          exact ⟨i, res, rfl, h, rfl⟩
        · intro _
          rfl
      · right
        exact ⟨res, rfl⟩
    | err e =>
      have hb : bridgeHandler api (.bridgeInput i) =
          ([bridgeCmd i], initOutput, some e) := by
        simp only [bridgeHandler, hc, h]
      rw [hb]
      constructor
      · constructor
        · intro hfalse
          simp [initOutput] at hfalse
        · rintro ⟨j, res, hj, hok, -⟩
          cases hj
          rw [h] at hok
          cases hok
      · left
        rfl

/-- After a successful SessionInit the workflow run is the dispatch on the
action value, with SessionInit already on the trace. -/
theorem inbound_dispatch (env : Env) (i : InboundWorkflowInput)
    (out : WorkflowOutput)
    (hsi : env.sessionInit = .ok out) (hs : out.success = true) :
    inboundHandler env (.wfInput i) =
      dispatch env i out [.sessionInit (siInput i)] := by
  have hc : convertWf (.wfInput i) = some i := rfl
  simp only [inboundHandler, hc, afterConvert, hsi, hs, Bool.not_true,
    Bool.false_eq_true, if_false]

/-- Dispatch reduced on a string-valued action. -/
theorem dispatch_action (env : Env) (i : InboundWorkflowInput)
    (out : WorkflowOutput) (tr : List Invocation) (a : String)
    (ha : mget out.metadata ActionKey = some (.str a)) :
    dispatch env i out tr =
      if a = ActionBridge then (tr, .ret out none)
      else if a = ActionHangup then hangupBranch env i out tr
      else if a = ActionOriginate then originateBranch env i out tr
      else (tr, .ret out none) := by
  simp only [dispatch, ha]

/-- The originate branch reduced on string destination, gateway and
profile data. -/
theorem originateBranch_reduce (env : Env) (i : InboundWorkflowInput)
    (out : WorkflowOutput) (tr : List Invocation) (d g p : String)
    (hd : mget out.metadata DestinationKey = some (.str d))
    (hg : mget out.metadata GatewayKey = some (.str g))
    (hp : profileOf out.metadata = some p) :
    originateBranch env i out tr =
      runOriginate env i out (oInput i.timeout d g p) tr := by
  cases hpp : mget out.metadata ProfileKey with
  | none =>
    have hp0 : p = "" := by
      unfold profileOf at hp
      rw [hpp] at hp
      exact (Option.some.inj hp).symm
    subst hp0
    simp only [originateBranch, hd, hg, hpp]
  | some v =>
    cases v with
    | str s =>
      have hp0 : p = s := by
        unfold profileOf at hp
        rw [hpp] at hp
        exact (Option.some.inj hp).symm
      subst hp0
      simp only [originateBranch, hd, hg, hpp]
    | other =>
      exfalso
      unfold profileOf at hp
      rw [hpp] at hp
      cases hp

/-- C1: when SessionInit succeeds with action `originate` and string
destination, gateway and profile data, and Originate succeeds, then if the
Originate output carries a string uid X the workflow invokes Bridge with
originator the input's sessionId and originatee X and returns Bridge's
output, while if the Originate output has no uid the workflow terminates
with the missing-field error for "uid" without invoking Bridge. -/
theorem c1_originate_success_bridges
    (env : Env) (i : InboundWorkflowInput) (out oout : WorkflowOutput)
    (d g p : String)
    (hsi : env.sessionInit = .ok out) (hs : out.success = true)
    (ha : mget out.metadata ActionKey = some (.str ActionOriginate))
    (hd : mget out.metadata DestinationKey = some (.str d))
    (hg : mget out.metadata GatewayKey = some (.str g))
    (hp : profileOf out.metadata = some p)
    (ho : env.originate (oInput i.timeout d g p) = .ok oout)
    (hos : oout.success = true) :
    (∀ x bout, mget oout.metadata UidKey = some (.str x) →
      env.bridge ⟨i.sessionId, x⟩ = .ok bout →
      inboundHandler env (.wfInput i) =
        ([.sessionInit (siInput i), .originate (oInput i.timeout d g p),
          .bridge ⟨i.sessionId, x⟩], .ret bout none)) ∧
    (mget oout.metadata UidKey = none →
      inboundHandler env (.wfInput i) =
        ([.sessionInit (siInput i), .originate (oInput i.timeout d g p)],
          .ret oout (some (RequireField "uid")))) := by
  have hrun : inboundHandler env (.wfInput i) =
      runOriginate env i out (oInput i.timeout d g p)
        [.sessionInit (siInput i)] := by
    rw [inbound_dispatch env i out hsi hs, dispatch_action env i out _ _ ha,
      if_neg (by decide), if_neg (by decide), if_pos rfl]
    exact originateBranch_reduce env i out _ d g p hd hg hp
  constructor
  · intro x bout hx hbr
    rw [hrun]
    simp only [runOriginate, ho, hos, Bool.not_true, Bool.false_eq_true,
      if_false, hx, runBridge, hbr]
    rfl
  · intro hnone
    rw [hrun]
    simp only [runOriginate, ho, hos, Bool.not_true, Bool.false_eq_true,
      if_false, hnone]
    rfl

/-- C2: when SessionInit succeeds with action `originate` but the metadata
lacks `destination` (or has a destination but lacks `gateway`), the
workflow terminates with the missing-field error naming the absent field,
destination checked first, and never invokes the Originate activity (the
trace stays at SessionInit alone). -/
theorem c2_missing_destination_or_gateway
    (env : Env) (i : InboundWorkflowInput) (out : WorkflowOutput)
    (hsi : env.sessionInit = .ok out) (hs : out.success = true)
    (ha : mget out.metadata ActionKey = some (.str ActionOriginate)) :
    (mget out.metadata DestinationKey = none →
      inboundHandler env (.wfInput i) =
        ([.sessionInit (siInput i)],
          .ret out (some (RequireField "destination")))) ∧
    (∀ v, mget out.metadata DestinationKey = some v →
      mget out.metadata GatewayKey = none →
      inboundHandler env (.wfInput i) =
        ([.sessionInit (siInput i)],
          .ret out (some (RequireField "gateway")))) := by
  have hdisp := inbound_dispatch env i out hsi hs
  rw [dispatch_action env i out _ _ ha,
    if_neg (by decide), if_neg (by decide), if_pos rfl] at hdisp
  constructor
  · intro hd
    rw [hdisp]
    simp only [originateBranch, hd]
  · intro v hd hg
    rw [hdisp]
    simp only [originateBranch, hd, hg]

/-- C4: when SessionInit succeeds with action `hangup`, the workflow
invokes Hangup with the input's sessionId and the string `hangupCause`
when present (the zero value `""` otherwise), and returns Hangup's output
verbatim whatever its success flag. -/
theorem c4_hangup_invoked_and_returned_verbatim
    (env : Env) (i : InboundWorkflowInput) (out hout : WorkflowOutput)
    (hsi : env.sessionInit = .ok out) (hs : out.success = true)
    (ha : mget out.metadata ActionKey = some (.str ActionHangup)) :
    (∀ c, mget out.metadata HangupCauseKey = some (.str c) →
      env.hangup ⟨i.sessionId, c⟩ = .ok hout →
      inboundHandler env (.wfInput i) =
        ([.sessionInit (siInput i), .hangup ⟨i.sessionId, c⟩],
          .ret hout none)) ∧
    (mget out.metadata HangupCauseKey = none →
      env.hangup ⟨i.sessionId, ""⟩ = .ok hout →
      inboundHandler env (.wfInput i) =
        ([.sessionInit (siInput i), .hangup ⟨i.sessionId, ""⟩],
          .ret hout none)) := by
  have hdisp := inbound_dispatch env i out hsi hs
  rw [dispatch_action env i out _ _ ha,
    if_neg (by decide), if_pos rfl] at hdisp
  constructor
  · intro c hc hh
    rw [hdisp]
    simp only [hangupBranch, hc, runHangup, hh]
    rfl
  · intro hc hh
    rw [hdisp]
    simp only [hangupBranch, hc, runHangup, hh]
    rfl

/-- C9: when SessionInit succeeds with a string action that is none of
`bridge`, `hangup`, `originate`, the workflow invokes no further activity
and completes as a no-op success returning SessionInit's output; and for
action `bridge` likewise no further activity is invoked and the workflow
completes successfully with SessionInit's output. -/
theorem c9_bridge_and_unrecognized_are_noops
    (env : Env) (i : InboundWorkflowInput) (out : WorkflowOutput)
    (a : String)
    (hsi : env.sessionInit = .ok out) (hs : out.success = true)
    (ha : mget out.metadata ActionKey = some (.str a)) :
    (a ≠ ActionBridge → a ≠ ActionHangup → a ≠ ActionOriginate →
      inboundHandler env (.wfInput i) =
        ([.sessionInit (siInput i)], .ret out none)) ∧
    (a = ActionBridge →
      inboundHandler env (.wfInput i) =
        ([.sessionInit (siInput i)], .ret out none)) := by
  have hdisp := inbound_dispatch env i out hsi hs
  rw [dispatch_action env i out _ _ ha] at hdisp
  constructor
  · intro h1 h2 h3
    rw [hdisp, if_neg h1, if_neg h2, if_neg h3]
  · intro h1
    rw [hdisp, if_pos h1]

/-- All invocations of a trace succeeded in the environment's eyes. -/
def allOk (env : Env) (l : List Invocation) : Prop :=
  ∀ inv ∈ l, (env.resultOf inv).failed = false

theorem allOk_dropLast (env : Env) (l : List Invocation) (h : allOk env l) :
    ∀ inv ∈ l.dropLast, (env.resultOf inv).failed = false :=
  fun inv hm => h inv ((List.dropLast_sublist l).subset hm)

theorem dropLast_concat_eq {α : Type} (l : List α) (a : α) :
    (l ++ [a]).dropLast = l := by
  simp

theorem allOk_append_one (env : Env) (tr : List Invocation)
    (inv : Invocation) (h : allOk env tr)
    (h2 : (env.resultOf inv).failed = false) : allOk env (tr ++ [inv]) := by
  intro j hj
  rcases List.mem_append.1 hj with hj | hj
  · exact h j hj
  · rcases List.mem_singleton.1 hj with rfl
    exact h2

theorem runBridge_good (env : Env) (prev : WorkflowOutput)
    (bi : BridgeActivityInput) (tr : List Invocation) (h : allOk env tr) :
    ∀ inv ∈ (runBridge env prev bi tr).1.dropLast,
      (env.resultOf inv).failed = false := by
  cases hb : env.bridge bi <;>
    simp only [runBridge, hb, dropLast_concat_eq] <;> exact h

theorem runHangup_good (env : Env) (prev : WorkflowOutput)
    (hi : HangupActivityInput) (tr : List Invocation) (h : allOk env tr) :
    ∀ inv ∈ (runHangup env prev hi tr).1.dropLast,
      (env.resultOf inv).failed = false := by
  cases hh : env.hangup hi <;>
    simp only [runHangup, hh, dropLast_concat_eq] <;> exact h

theorem runOriginate_good (env : Env) (i : InboundWorkflowInput)
    (prev : WorkflowOutput) (oi : OriginateActivityInput)
    (tr : List Invocation) (h : allOk env tr) :
    ∀ inv ∈ (runOriginate env i prev oi tr).1.dropLast,
      (env.resultOf inv).failed = false := by
  cases ho : env.originate oi with
  | err e =>
    simp only [runOriginate, ho, dropLast_concat_eq]
    exact h
  | ok oout =>
    cases hs : oout.success with
    | false =>
      simp only [runOriginate, ho, hs, Bool.not_false, if_true,
        dropLast_concat_eq]
      exact h
    | true =>
      have hext : allOk env (tr ++ [.originate oi]) :=
        allOk_append_one env tr _ h
          (by simp [Env.resultOf, ho, ActivityResult.failed, hs])
      cases hu : mget oout.metadata UidKey with
      | none =>
        simp only [runOriginate, ho, hs, Bool.not_true, Bool.false_eq_true,
          if_false, hu, dropLast_concat_eq]
        exact h
      | some v =>
        cases v with
        | other =>
          simp only [runOriginate, ho, hs, Bool.not_true, Bool.false_eq_true,
            if_false, hu, dropLast_concat_eq]
          exact h
        | str x =>
          simp only [runOriginate, ho, hs, Bool.not_true, Bool.false_eq_true,
            if_false, hu]
          exact runBridge_good env oout ⟨i.sessionId, x⟩ _ hext

theorem originateBranch_good (env : Env) (i : InboundWorkflowInput)
    (out : WorkflowOutput) (tr : List Invocation) (h : allOk env tr) :
    ∀ inv ∈ (originateBranch env i out tr).1.dropLast,
      (env.resultOf inv).failed = false := by
  unfold originateBranch
  cases mget out.metadata DestinationKey with
  | none => exact allOk_dropLast env tr h
  | some dv =>
    cases mget out.metadata GatewayKey with
    | none => exact allOk_dropLast env tr h
    | some gv =>
      cases dv with
      | other => exact allOk_dropLast env tr h
      | str d =>
        cases gv with
        | other => exact allOk_dropLast env tr h
        | str g =>
          cases mget out.metadata ProfileKey with
          | none => exact runOriginate_good env i out _ tr h
          | some pv =>
            cases pv with
            | str p => exact runOriginate_good env i out _ tr h
            | other => exact allOk_dropLast env tr h

theorem hangupBranch_good (env : Env) (i : InboundWorkflowInput)
    (out : WorkflowOutput) (tr : List Invocation) (h : allOk env tr) :
    ∀ inv ∈ (hangupBranch env i out tr).1.dropLast,
      (env.resultOf inv).failed = false := by
  unfold hangupBranch
  cases mget out.metadata HangupCauseKey with
  | none => exact runHangup_good env out _ tr h
  | some v =>
    cases v with
    | str c => exact runHangup_good env out _ tr h
    | other => exact allOk_dropLast env tr h

theorem dispatch_good (env : Env) (i : InboundWorkflowInput)
    (out : WorkflowOutput) (tr : List Invocation) (h : allOk env tr) :
    ∀ inv ∈ (dispatch env i out tr).1.dropLast,
      (env.resultOf inv).failed = false := by
  cases hact : mget out.metadata ActionKey with
  | none =>
    have hred : dispatch env i out tr = (tr, .panic) := by
      simp only [dispatch, hact]
    rw [hred]
    exact allOk_dropLast env tr h
  | some v =>
    cases v with
    | other =>
      have hred : dispatch env i out tr = (tr, .panic) := by
        simp only [dispatch, hact]
      rw [hred]
      exact allOk_dropLast env tr h
    | str a =>
      rw [dispatch_action env i out tr a hact]
      split_ifs <;>
        first
          | exact allOk_dropLast env tr h
          | exact hangupBranch_good env i out tr h
          | exact originateBranch_good env i out tr h

/-- C5: an error or `success=false` from SessionInit is terminal (the run
returns immediately with that output and error, having invoked only
SessionInit), and in general the workflow never invokes another activity
after a step that failed or returned `success=false`: every invocation
strictly before the last one succeeded. -/
theorem c5_fail_fast_no_continuation :
    (∀ env (i : InboundWorkflowInput) e, env.sessionInit = .err e →
      inboundHandler env (.wfInput i) =
        ([.sessionInit (siInput i)], .ret initOutput (some e))) ∧
    (∀ env (i : InboundWorkflowInput) out, env.sessionInit = .ok out →
      out.success = false →
      inboundHandler env (.wfInput i) =
        ([.sessionInit (siInput i)], .ret out none)) ∧
    (∀ env pl inv, inv ∈ (inboundHandler env pl).1.dropLast →
      (env.resultOf inv).failed = false) := by
  refine ⟨?_, ?_, ?_⟩
  · intro env i e hsi
    have hc : convertWf (.wfInput i) = some i := rfl
    simp only [inboundHandler, hc, afterConvert, hsi]
  · intro env i out hsi hs
    have hc : convertWf (.wfInput i) = some i := rfl
    simp only [inboundHandler, hc, afterConvert, hsi, hs, Bool.not_false,
      if_true]
  · intro env pl inv hm
    cases pl with
    | bad => simp [inboundHandler, convertWf] at hm
    | bridgeInput j => simp [inboundHandler, convertWf] at hm
    | wfInput i =>
      have hc : convertWf (.wfInput i) = some i := rfl
      rw [inboundHandler] at hm
      rw [hc] at hm
      cases hsi : env.sessionInit with
      | err e =>
        simp only [afterConvert, hsi, List.dropLast_single] at hm
        cases hm
      | ok out =>
        cases hs : out.success with
        | false =>
          simp only [afterConvert, hsi, hs, Bool.not_false, if_true,
            List.dropLast_single] at hm
          cases hm
        | true =>
          simp only [afterConvert, hsi, hs, Bool.not_true,
            Bool.false_eq_true, if_false] at hm
          have hok : allOk env [.sessionInit (siInput i)] := by
            intro j hj
            rcases List.mem_singleton.1 hj with rfl
            simp [Env.resultOf, hsi, ActivityResult.failed, hs]
          exact dispatch_good env i out _ hok inv hm

/-- Witness for C5 at a session-init transport failure: the run stops
after SessionInit with the initial output and the error. -/
theorem c5_fail_fast_no_continuation_witness :
    inboundHandler
        (mkEnv (.err (.transport "-ERR timeout")) (.ok initOutput)
          (.ok initOutput) (.ok initOutput)) (.wfInput wIn) =
      ([.sessionInit (siInput wIn)],
        .ret initOutput (some (.transport "-ERR timeout"))) :=
  c5_fail_fast_no_continuation.1
    (mkEnv (.err (.transport "-ERR timeout")) (.ok initOutput)
      (.ok initOutput) (.ok initOutput)) wIn (.transport "-ERR timeout") rfl

theorem runHangup_ne_panic (env : Env) (prev : WorkflowOutput)
    (hi : HangupActivityInput) (tr : List Invocation) :
    (runHangup env prev hi tr).2 ≠ .panic := by
  cases hh : env.hangup hi <;> simp [runHangup, hh]

theorem runBridge_ne_panic (env : Env) (prev : WorkflowOutput)
    (bi : BridgeActivityInput) (tr : List Invocation) :
    (runBridge env prev bi tr).2 ≠ .panic := by
  cases hb : env.bridge bi <;> simp [runBridge, hb]

/-- C10: the workflow's branch dispatch is total only under an unstated
precondition. If a successful SessionInit output lacks `action`, or holds
a non-string under `action` (or under `hangupCause`, `destination`,
`gateway`, `profile`, or `uid` at the point where those are read), the
unchecked `.(string)` type assertion panics instead of taking the
documented no-op or missing-field path; conversely, whenever every read
metadata value is present as a string at its read point, no assertion
fails. -/
theorem c10_type_assertion_totality :
    (∀ env (i : InboundWorkflowInput) out, env.sessionInit = .ok out →
      out.success = true →
      (mget out.metadata ActionKey = none ∨
        mget out.metadata ActionKey = some .other) →
      inboundHandler env (.wfInput i) =
        ([.sessionInit (siInput i)], .panic)) ∧
    (∀ env (i : InboundWorkflowInput) out, env.sessionInit = .ok out →
      out.success = true →
      mget out.metadata ActionKey = some (.str ActionHangup) →
      mget out.metadata HangupCauseKey = some .other →
      inboundHandler env (.wfInput i) =
        ([.sessionInit (siInput i)], .panic)) ∧
    (∀ env (i : InboundWorkflowInput) out v, env.sessionInit = .ok out →
      out.success = true →
      mget out.metadata ActionKey = some (.str ActionOriginate) →
      mget out.metadata DestinationKey = some .other →
      mget out.metadata GatewayKey = some v →
      inboundHandler env (.wfInput i) =
        ([.sessionInit (siInput i)], .panic)) ∧
    (∀ env (i : InboundWorkflowInput) out d, env.sessionInit = .ok out →
      out.success = true →
      mget out.metadata ActionKey = some (.str ActionOriginate) →
      mget out.metadata DestinationKey = some (.str d) →
      mget out.metadata GatewayKey = some .other →
      inboundHandler env (.wfInput i) =
        ([.sessionInit (siInput i)], .panic)) ∧
    (∀ env (i : InboundWorkflowInput) out d g, env.sessionInit = .ok out →
      out.success = true →
      mget out.metadata ActionKey = some (.str ActionOriginate) →
      mget out.metadata DestinationKey = some (.str d) →
      mget out.metadata GatewayKey = some (.str g) →
      mget out.metadata ProfileKey = some .other →
      inboundHandler env (.wfInput i) =
        ([.sessionInit (siInput i)], .panic)) ∧
    (∀ env (i : InboundWorkflowInput) out oout d g p,
      env.sessionInit = .ok out → out.success = true →
      mget out.metadata ActionKey = some (.str ActionOriginate) →
      mget out.metadata DestinationKey = some (.str d) →
      mget out.metadata GatewayKey = some (.str g) →
      profileOf out.metadata = some p →
      env.originate (oInput i.timeout d g p) = .ok oout →
      oout.success = true →
      mget oout.metadata UidKey = some .other →
      inboundHandler env (.wfInput i) =
        ([.sessionInit (siInput i), .originate (oInput i.timeout d g p)],
          .panic)) ∧
    (∀ env pl,
      (∀ out, env.sessionInit = .ok out → out.success = true →
        mget out.metadata ActionKey ≠ none ∧ keysOk out.metadata) →
      (∀ oi oout, env.originate oi = .ok oout → keysOk oout.metadata) →
      (inboundHandler env pl).2 ≠ .panic) := by
  refine ⟨?_, ?_, ?_, ?_, ?_, ?_, ?_⟩
  · intro env i out hsi hs hact
    rw [inbound_dispatch env i out hsi hs]
    rcases hact with hact | hact <;> simp only [dispatch, hact]
  · intro env i out hsi hs ha hcz
    rw [inbound_dispatch env i out hsi hs, dispatch_action env i out _ _ ha,
      if_neg (by decide), if_pos rfl]
    simp only [hangupBranch, hcz]
  · intro env i out v hsi hs ha hd hg
    rw [inbound_dispatch env i out hsi hs, dispatch_action env i out _ _ ha,
      if_neg (by decide), if_neg (by decide), if_pos rfl]
    simp only [originateBranch, hd, hg]
  · intro env i out d hsi hs ha hd hg
    rw [inbound_dispatch env i out hsi hs, dispatch_action env i out _ _ ha,
      if_neg (by decide), if_neg (by decide), if_pos rfl]
    simp only [originateBranch, hd, hg]
  · intro env i out d g hsi hs ha hd hg hpp
    rw [inbound_dispatch env i out hsi hs, dispatch_action env i out _ _ ha,
      if_neg (by decide), if_neg (by decide), if_pos rfl]
    simp only [originateBranch, hd, hg, hpp]
  · intro env i out oout d g p hsi hs ha hd hg hp ho hos hu
    rw [inbound_dispatch env i out hsi hs, dispatch_action env i out _ _ ha,
      if_neg (by decide), if_neg (by decide), if_pos rfl,
      originateBranch_reduce env i out _ d g p hd hg hp]
    simp only [runOriginate, ho, hos, Bool.not_true, Bool.false_eq_true,
      if_false, hu]
    rfl
  · intro env pl hsi horig
    cases pl with
    | bad => simp [inboundHandler, convertWf]
    | bridgeInput j => simp [inboundHandler, convertWf]
    | wfInput i =>
      have hc : convertWf (.wfInput i) = some i := rfl
      cases hs : env.sessionInit with
      | err e => simp [inboundHandler, hc, afterConvert, hs]
      | ok out =>
        cases hsucc : out.success with
        | false =>
          simp [inboundHandler, hc, afterConvert, hs, hsucc]
        | true =>
          obtain ⟨hne, hok⟩ := hsi out hs hsucc
          rw [inbound_dispatch env i out hs hsucc]
          cases hact : mget out.metadata ActionKey with
          | none => exact absurd hact hne
          | some v =>
            cases v with
            | other =>
              have := hok ActionKey (by decide) .other hact
              cases this
            | str a =>
              rw [dispatch_action env i out _ _ hact]
              split_ifs with h1 h2 h3
              · simp
              · cases hcz : mget out.metadata HangupCauseKey with
                | none =>
                  simp only [hangupBranch, hcz]
                  exact runHangup_ne_panic env out _ _
                | some w =>
                  cases w with
                  | str c =>
                    simp only [hangupBranch, hcz]
                    exact runHangup_ne_panic env out _ _
                  | other =>
                    have := hok HangupCauseKey (by decide) .other hcz
                    cases this
              · cases hd : mget out.metadata DestinationKey with
                | none => simp [originateBranch, hd]
                | some dv =>
                  cases dv with
                  | other =>
                    have := hok DestinationKey (by decide) .other hd
                    cases this
                  | str d =>
                    cases hg : mget out.metadata GatewayKey with
                    | none => simp [originateBranch, hd, hg]
                    | some gv =>
                      cases gv with
                      | other =>
                        have := hok GatewayKey (by decide) .other hg
                        cases this
                      | str g =>
                        have hpok : ∃ p, profileOf out.metadata = some p := by
                          cases hpp : mget out.metadata ProfileKey with
                          | none => exact ⟨"", by simp [profileOf, hpp]⟩
                          | some pv =>
                            cases pv with
                            | str s => exact ⟨s, by simp [profileOf, hpp]⟩
                            | other =>
                              have := hok ProfileKey (by decide) .other hpp
                              cases this
                        obtain ⟨p, hp⟩ := hpok
                        rw [originateBranch_reduce env i out _ d g p hd hg hp]
                        cases ho : env.originate (oInput i.timeout d g p) with
                        | err e => simp [runOriginate, ho]
                        | ok oout =>
                          cases hosucc : oout.success with
                          | false => simp [runOriginate, ho, hosucc]
                          | true =>
                            have hok2 := horig _ _ ho
                            cases hu : mget oout.metadata UidKey with
                            | none => simp [runOriginate, ho, hosucc, hu]
                            | some uv =>
                              cases uv with
                              | other =>
                                have := hok2 UidKey (by decide) .other hu
                                cases this
                              | str x =>
                                simp only [runOriginate, ho, hosucc,
                                  Bool.not_true, Bool.false_eq_true,
                                  if_false, hu]
                                exact runBridge_ne_panic env oout _ _
              · simp

/-- Witness for C1 on a concrete run: SessionInit chooses originate with
destination and gateway, Originate yields uid "leg-B", and the workflow
bridges "sess-1" with "leg-B" and returns Bridge's output. -/
theorem c1_originate_success_bridges_witness :
    inboundHandler envC1 (.wfInput wIn) =
      ([.sessionInit (siInput wIn),
        .originate (oInput wIn.timeout "16505550100" "gw1" ""),
        .bridge ⟨wIn.sessionId, "leg-B"⟩], .ret boutC1 none) :=
  (c1_originate_success_bridges envC1 wIn outC1 ooutC1 "16505550100" "gw1" ""
    rfl rfl rfl rfl rfl rfl rfl rfl).1 "leg-B" boutC1 rfl rfl

/-- Witness for C2 on a concrete run: SessionInit chooses originate
without a destination; the run stops with the destination missing-field
error after SessionInit alone. -/
theorem c2_missing_destination_or_gateway_witness :
    inboundHandler envC2 (.wfInput wIn) =
      ([.sessionInit (siInput wIn)],
        .ret outC2 (some (RequireField "destination"))) :=
  (c2_missing_destination_or_gateway envC2 wIn outC2 rfl rfl rfl).1 rfl

/-- Witness for C4 on a concrete run: SessionInit chooses hangup with
cause NORMAL_CLEARING; the workflow invokes Hangup with that cause and
returns Hangup's output. -/
theorem c4_hangup_invoked_and_returned_verbatim_witness :
    inboundHandler envC4 (.wfInput wIn) =
      ([.sessionInit (siInput wIn),
        .hangup ⟨wIn.sessionId, "NORMAL_CLEARING"⟩], .ret houtC4 none) :=
  (c4_hangup_invoked_and_returned_verbatim envC4 wIn outC4 houtC4
    rfl rfl rfl).1 "NORMAL_CLEARING" rfl rfl

/-- Witness for C9 on a concrete run: the unrecognized action "transfer"
completes as a no-op success returning SessionInit's output. -/
theorem c9_bridge_and_unrecognized_are_noops_witness :
    inboundHandler envC9 (.wfInput wIn) =
      ([.sessionInit (siInput wIn)], .ret outC9 none) :=
  (c9_bridge_and_unrecognized_are_noops envC9 wIn outC9 "transfer"
    rfl rfl rfl).1 (by decide) (by decide) (by decide)

/-- Witness for C10 on a concrete run: a successful SessionInit output
with no action key makes the dispatch assertion panic. -/
theorem c10_type_assertion_totality_witness :
    inboundHandler envC10 (.wfInput wIn) =
      ([.sessionInit (siInput wIn)], .panic) :=
  c10_type_assertion_totality.1 envC10 wIn outC10 rfl rfl (Or.inl rfl)

end Fsflow
